import Mathlib

set_option maxRecDepth 1000000

/-!
# Verification of the Bellabeat Fitbit data-processing pipeline

Shallow embedding of `scripts/data_processing.py`.  A pandas DataFrame of the
unified per-(user, day) table is modelled as a `List Row`, where a nullable
numeric cell is an `Option ℚ` (pandas `NaN` ↦ `none`).  Each cleaning stage of
the source file becomes a Lean function of the same name; `clean_data`
composes them in the source's order.  Row order of pandas `groupby` output is
abstracted to first-appearance order (pandas sorts group keys); no claim below
depends on row order.  The `Id` column is modelled as a plain integer: it is
int-typed and non-negative in the dataset, and no claim involves negative ids.
-/

/-- One row of the unified dataset (`merged_df` in the source).  Columns that
are created by later pipeline stages (`HasSleepData`, …, `SleepEfficiency`,
`VeryActiveRatio`) are `none` until the stage that creates them runs; columns
removed by `drop_unnecessary_columns` are set to `none` there.  Only the
columns the verified claims mention are carried. -/
structure Row where
  Id : Int
  Date : String
  TotalSteps : Option ℚ := none
  TotalDistance : Option ℚ := none
  VeryActiveDistance : Option ℚ := none
  SedentaryActiveDistance : Option ℚ := none
  VeryActiveMinutes : Option ℚ := none
  Calories : Option ℚ := none
  TotalMinutesAsleep : Option ℚ := none
  TotalTimeInBed : Option ℚ := none
  AvgWeightKg : Option ℚ := none
  AvgWeightPounds : Option ℚ := none
  AvgBMI : Option ℚ := none
  AvgHeartRate : Option ℚ := none
  HasSleepData : Option Int := none
  HasWeightData : Option Int := none
  HasBMIData : Option Int := none
  HasHeartRateData : Option Int := none
  SleepEfficiency : Option ℚ := none
  VeryActiveRatio : Option ℚ := none
deriving DecidableEq

/-- `pandas.DataFrame.drop_duplicates` (keep the first occurrence of each
duplicated row), as called in `handle_duplicates`. -/
def drop_duplicates {α : Type} [DecidableEq α] : List α → List α
  | [] => []
  | x :: xs => x :: drop_duplicates (xs.filter fun y => decide (y ≠ x))
termination_by l => l.length
decreasing_by
  exact Nat.lt_succ_of_le (List.length_filter_le _ xs)

/-- `handle_duplicates` (data_processing.py:447): remove exact duplicate rows. -/
def handle_duplicates (df : List Row) : List Row :=
  drop_duplicates df

/-- The row-retention test of `df.dropna(subset=["TotalSteps", "Calories"])`
(data_processing.py:347): a row survives iff both essential cells are
non-null. -/
def essential_filter (df : List Row) : List Row :=
  df.filter fun r => r.TotalSteps.isSome && r.Calories.isSome

/-- `df.groupby("Id")[col].transform("mean")` restricted to one user: the mean
of the user's non-null values of the column, `none` when the user has no
non-null value (pandas mean of an all-NaN group is NaN). -/
def user_mean (df : List Row) (f : Row → Option ℚ) (id : Int) : Option ℚ :=
  let vs := (df.filter fun r => decide (r.Id = id)).filterMap f
  if vs.length = 0 then none else some (vs.sum / (vs.length : ℚ))

/-- `Series.fillna`: keep the cell when present, otherwise use the fill
value. -/
def fillna (x : Option ℚ) (y : Option ℚ) : Option ℚ :=
  match x with
  | some v => some v
  | none => y

/-- `df["Calories"].sum() / df["TotalSteps"].sum()` (data_processing.py:360);
pandas `sum` skips NaN. -/
def avg_calories_per_step (df : List Row) : ℚ :=
  (df.filterMap fun r => r.Calories).sum / (df.filterMap fun r => r.TotalSteps).sum

/-- `handle_missing_values` (data_processing.py:336-364): drop rows missing
TotalSteps or Calories, derive `HasSleepData`, impute AvgWeightKg / AvgBMI /
AvgHeartRate with the same user's own mean.  The final calorie fill of the
source (line 362) computes `df["TotalSteps"] * avg_calories_per_step` and
fills the Calories series with it, but the result is never assigned back to
the frame; `_discarded_calories` mirrors that dead computation. -/
def handle_missing_values (df : List Row) : List Row :=
  let kept := essential_filter df
  let flagged := kept.map fun r =>
    { r with HasSleepData := some (if r.TotalMinutesAsleep.isSome then 1 else 0) }
  let w := flagged.map fun r =>
    { r with AvgWeightKg := fillna r.AvgWeightKg (user_mean flagged (fun s => s.AvgWeightKg) r.Id) }
  let b := w.map fun r =>
    { r with AvgBMI := fillna r.AvgBMI (user_mean w (fun s => s.AvgBMI) r.Id) }
  let h := b.map fun r =>
    { r with AvgHeartRate := fillna r.AvgHeartRate (user_mean b (fun s => s.AvgHeartRate) r.Id) }
  let _discarded_calories := h.map fun r =>
    fillna r.Calories (r.TotalSteps.map fun v => v * avg_calories_per_step h)
  h

/-- `flag_weight_tracking` (data_processing.py:366-381). -/
def flag_weight_tracking (df : List Row) : List Row :=
  df.map fun r =>
    { r with
      HasWeightData := some (if r.AvgWeightKg.isSome then 1 else 0)
      HasBMIData := some (if r.AvgBMI.isSome then 1 else 0) }

/-- Insert into a sorted list of rationals. -/
def insert_sorted (x : ℚ) : List ℚ → List ℚ
  | [] => [x]
  | y :: ys => if x ≤ y then x :: y :: ys else y :: insert_sorted x ys

/-- Insertion sort on rationals (the sort underlying `Series.quantile`). -/
def sort_rats : List ℚ → List ℚ
  | [] => []
  | x :: xs => insert_sorted x (sort_rats xs)

/-- `Series.quantile(p)` with the default linear interpolation, over the
non-null values `xs`: position `h = p·(n−1)` in the sorted values, linearly
interpolated between the neighbouring order statistics; `none` when there is
no non-null value (pandas returns NaN). -/
def quantile (xs : List ℚ) (p : ℚ) : Option ℚ :=
  let s := sort_rats xs
  if s.length = 0 then none
  else
    let h : ℚ := p * ((s.length : ℚ) - 1)
    let i : Nat := ⌊h⌋.toNat
    let lo := s.getD i 0
    let hi := s.getD (i + 1) lo
    some (lo + (h - (⌊h⌋ : ℚ)) * (hi - lo))

/-- One pass of the outlier loop of `handle_outliers`
(data_processing.py:397-405) for the column read by `f`: compute Tukey bounds
`[Q1 − 1.5·IQR, Q3 + 1.5·IQR]` from the column's non-null population and keep
exactly the rows whose value is null or within bounds.  When the column has no
non-null value both quantiles are NaN and every comparison with them is false,
so only null rows pass — the second branch. -/
def iqr_filter (f : Row → Option ℚ) (df : List Row) : List Row :=
  match quantile (df.filterMap f) (1/4), quantile (df.filterMap f) (3/4) with
  | some q1, some q3 =>
      df.filter fun r =>
        match f r with
        | none => true
        | some v =>
            decide (q1 - 3/2 * (q3 - q1) ≤ v) && decide (v ≤ q3 + 3/2 * (q3 - q1))
  | _, _ => df.filter fun r => (f r).isNone

/-- The heart-rate plausibility filter of `handle_outliers`
(data_processing.py:408): keep a row iff AvgHeartRate is null or lies in
`[30, 250]`.  Out-of-range rows are removed from the frame. -/
def hr_range_filter (df : List Row) : List Row :=
  df.filter fun r =>
    match r.AvgHeartRate with
    | none => true
    | some v => decide (30 ≤ v) && decide (v ≤ 250)

/-- `df["HasHeartRateData"] = df["AvgHeartRate"].notna().astype(int)`
(data_processing.py:411). -/
def set_heart_rate_flag (r : Row) : Row :=
  { r with HasHeartRateData := some (if r.AvgHeartRate.isSome then 1 else 0) }

/-- `handle_outliers` (data_processing.py:383-413): successive Tukey filters
for TotalSteps, Calories, VeryActiveMinutes, TotalDistance (each recomputing
quantiles on the already-filtered frame, as the source's loop reassigns
`df`), then the heart-rate range filter, then the heart-rate tracking flag. -/
def handle_outliers (df : List Row) : List Row :=
  let t1 := iqr_filter (fun r => r.TotalSteps) df
  let t2 := iqr_filter (fun r => r.Calories) t1
  let t3 := iqr_filter (fun r => r.VeryActiveMinutes) t2
  let t4 := iqr_filter (fun r => r.TotalDistance) t3
  (hr_range_filter t4).map set_heart_rate_flag

/-- Per-row body of `add_derived_metrics` (data_processing.py:415-431).
`np.where(cond, a / b, nan)` evaluates the ratio only meaningfully where the
condition holds; a NaN or non-positive denominator yields NaN, and a NaN
numerator propagates. -/
def derive_row (r : Row) : Row :=
  { r with
    SleepEfficiency :=
      match r.TotalTimeInBed with
      | some b => if 0 < b then r.TotalMinutesAsleep.map (fun a => a / b) else none
      | none => none
    VeryActiveRatio :=
      match r.TotalDistance with
      | some d => if 0 < d then r.VeryActiveDistance.map (fun a => a / d) else none
      | none => none }

/-- `add_derived_metrics` (data_processing.py:415-431). -/
def add_derived_metrics (df : List Row) : List Row :=
  df.map derive_row

/-- Per-row body of `drop_unnecessary_columns` (data_processing.py:433-445):
the dropped columns read as null afterwards. -/
def prune_row (r : Row) : Row :=
  { r with SedentaryActiveDistance := none, AvgWeightPounds := none }

/-- `drop_unnecessary_columns` (data_processing.py:433-445). -/
def drop_unnecessary_columns (df : List Row) : List Row :=
  df.map prune_row

/-- `lambda x: np.nan if x < 0 else x` on one nullable rational cell
(NaN < 0 is false, so null cells stay null). -/
def scrub_cell (o : Option ℚ) : Option ℚ :=
  match o with
  | some v => if v < 0 then none else some v
  | none => none

/-- The same scrub on an integer-valued (flag) cell. -/
def scrub_flag (o : Option Int) : Option Int :=
  match o with
  | some v => if v < 0 then none else some v
  | none => none

/-- Per-row body of `handle_negative_values` (data_processing.py:462-478):
every numeric cell below zero becomes null.  (The source also scrubs the
int-typed `Id` column; ids are non-negative, see the module comment.) -/
def scrub_row (r : Row) : Row :=
  { r with
    TotalSteps := scrub_cell r.TotalSteps
    TotalDistance := scrub_cell r.TotalDistance
    VeryActiveDistance := scrub_cell r.VeryActiveDistance
    SedentaryActiveDistance := scrub_cell r.SedentaryActiveDistance
    VeryActiveMinutes := scrub_cell r.VeryActiveMinutes
    Calories := scrub_cell r.Calories
    TotalMinutesAsleep := scrub_cell r.TotalMinutesAsleep
    TotalTimeInBed := scrub_cell r.TotalTimeInBed
    AvgWeightKg := scrub_cell r.AvgWeightKg
    AvgWeightPounds := scrub_cell r.AvgWeightPounds
    AvgBMI := scrub_cell r.AvgBMI
    AvgHeartRate := scrub_cell r.AvgHeartRate
    HasSleepData := scrub_flag r.HasSleepData
    HasWeightData := scrub_flag r.HasWeightData
    HasBMIData := scrub_flag r.HasBMIData
    HasHeartRateData := scrub_flag r.HasHeartRateData
    SleepEfficiency := scrub_cell r.SleepEfficiency
    VeryActiveRatio := scrub_cell r.VeryActiveRatio }

/-- `handle_negative_values` (data_processing.py:462-478). -/
def handle_negative_values (df : List Row) : List Row :=
  df.map scrub_row

/-- Round-half-to-even to an integer (numpy's rounding mode, used by
`DataFrame.round`). -/
def round_half_even (x : ℚ) : Int :=
  let f := ⌊x⌋
  let r := x - (f : ℚ)
  if r < 1/2 then f
  else if 1/2 < r then f + 1
  else if 2 ∣ f then f else f + 1

/-- `round(2)` on one rational: round half to even at the second decimal. -/
def round2 (x : ℚ) : ℚ :=
  (round_half_even (100 * x) : ℚ) / 100

/-- Per-row body of `round_decimal_values` (data_processing.py:480-499):
round every numeric column except `Id` and the four binary flags. -/
def round_row (r : Row) : Row :=
  { r with
    TotalSteps := r.TotalSteps.map round2
    TotalDistance := r.TotalDistance.map round2
    VeryActiveDistance := r.VeryActiveDistance.map round2
    SedentaryActiveDistance := r.SedentaryActiveDistance.map round2
    VeryActiveMinutes := r.VeryActiveMinutes.map round2
    Calories := r.Calories.map round2
    TotalMinutesAsleep := r.TotalMinutesAsleep.map round2
    TotalTimeInBed := r.TotalTimeInBed.map round2
    AvgWeightKg := r.AvgWeightKg.map round2
    AvgWeightPounds := r.AvgWeightPounds.map round2
    AvgBMI := r.AvgBMI.map round2
    AvgHeartRate := r.AvgHeartRate.map round2
    SleepEfficiency := r.SleepEfficiency.map round2
    VeryActiveRatio := r.VeryActiveRatio.map round2 }

/-- `round_decimal_values` (data_processing.py:480-499). -/
def round_decimal_values (df : List Row) : List Row :=
  df.map round_row

/-- `clean_data` (data_processing.py:501-522): the fixed-order cleaning
pipeline. -/
def clean_data (df : List Row) : List Row :=
  round_decimal_values
    (handle_negative_values
      (drop_unnecessary_columns
        (add_derived_metrics
          (handle_outliers
            (flag_weight_tracking
              (handle_missing_values
                (handle_duplicates df)))))))

/-! ## The Merger (`merge_all_data`, data_processing.py:524-546)

The four per-kind tables (activity, reduced sleep, reduced weight, reduced
heart rate — each already concatenated across the two windows) are modelled
with one structure per kind, carrying the columns that survive to the merge. -/

/-- A row of the concatenated daily-activity table (the base relation). -/
structure ActRow where
  Id : Int
  Date : String
  TotalSteps : Option ℚ := none
  TotalDistance : Option ℚ := none
  VeryActiveDistance : Option ℚ := none
  SedentaryActiveDistance : Option ℚ := none
  VeryActiveMinutes : Option ℚ := none
  Calories : Option ℚ := none
deriving DecidableEq

/-- A row of the concatenated daily sleep table. -/
structure SleepRow where
  Id : Int
  Date : String
  TotalMinutesAsleep : Option ℚ := none
  TotalTimeInBed : Option ℚ := none
deriving DecidableEq

/-- A row of the concatenated reduced weight table. -/
structure WeightRow where
  Id : Int
  Date : String
  AvgWeightKg : Option ℚ := none
  AvgWeightPounds : Option ℚ := none
  AvgBMI : Option ℚ := none
deriving DecidableEq

/-- A row of the concatenated reduced heart-rate table. -/
structure HrRow where
  Id : Int
  Date : String
  AvgHeartRate : Option ℚ := none
deriving DecidableEq

/-- The matches a pandas left merge pairs one left row with: every right-table
row with the same `(Id, Date)` key, or a single all-null partner when there is
none. -/
def key_matches {β : Type} (getKey : β → Int × String) (xs : List β)
    (k : Int × String) : List (Option β) :=
  let m := xs.filter fun s => decide (getKey s = k)
  if m.length = 0 then [none] else m.map some

/-- Assemble one unified row from an activity row and its (possibly absent)
join partners.  Columns of later pipeline stages do not exist yet. -/
def mk_unified_row (a : ActRow) (so : Option SleepRow) (wo : Option WeightRow)
    (ho : Option HrRow) : Row :=
  { Id := a.Id
    Date := a.Date
    TotalSteps := a.TotalSteps
    TotalDistance := a.TotalDistance
    VeryActiveDistance := a.VeryActiveDistance
    SedentaryActiveDistance := a.SedentaryActiveDistance
    VeryActiveMinutes := a.VeryActiveMinutes
    Calories := a.Calories
    TotalMinutesAsleep := so.bind fun s => s.TotalMinutesAsleep
    TotalTimeInBed := so.bind fun s => s.TotalTimeInBed
    AvgWeightKg := wo.bind fun w => w.AvgWeightKg
    AvgWeightPounds := wo.bind fun w => w.AvgWeightPounds
    AvgBMI := wo.bind fun w => w.AvgBMI
    AvgHeartRate := ho.bind fun h => h.AvgHeartRate }

/-- `merge_all_data` (data_processing.py:541-544): successive left joins of
the sleep, weight, and heart-rate tables onto the activity base table on the
composite key `(Id, Date)`.  With a shared key, the three successive pandas
left merges emit, for each activity row, one output row per combination of
matches (or null partners) — exactly this nested traversal. -/
def merge_all_data (acts : List ActRow) (sleeps : List SleepRow)
    (weights : List WeightRow) (hrs : List HrRow) : List Row :=
  acts.flatMap fun a =>
    (key_matches (fun s => (s.Id, s.Date)) sleeps (a.Id, a.Date)).flatMap fun so =>
      (key_matches (fun w => (w.Id, w.Date)) weights (a.Id, a.Date)).flatMap fun wo =>
        (key_matches (fun h => (h.Id, h.Date)) hrs (a.Id, a.Date)).map fun ho =>
          mk_unified_row a so wo ho

/-! ## The sleep Granularity Reducer (`convert_minute_sleep_to_daily`,
data_processing.py:160-197) -/

/-- A row of the minute-level sleep export: one row per user per minute with a
sleep-stage code (`value`; 1 = asleep). -/
structure MinuteSleepRow where
  Id : Int
  Date : String
  value : Int
deriving DecidableEq

/-- The `groupby(["Id", date_col])` key of a minute-sleep row. -/
def ms_key (m : MinuteSleepRow) : Int × String :=
  (m.Id, m.Date)

/-- `convert_minute_sleep_to_daily` (data_processing.py:160-197): group the
minute rows by `(Id, Date)`; `TotalTimeInBed` is the group's row count,
`TotalMinutesAsleep` the count of its rows with `value == 1`.  The source
left-merges the asleep counts onto the in-bed counts and fills the missing
ones with 0, which the `if` mirrors: a group with no asleep row reads 0.
(Pandas sorts the group keys; first-appearance order is used here, and no
claim depends on row order.) -/
def convert_minute_sleep_to_daily (rows : List MinuteSleepRow) : List SleepRow :=
  let keys := drop_duplicates (rows.map ms_key)
  keys.map fun k =>
    let inBed := (rows.filter fun m => decide (ms_key m = k)).length
    let asleep := (rows.filter fun m => decide (ms_key m = k ∧ m.value = 1)).length
    { Id := k.1
      Date := k.2
      TotalMinutesAsleep := some (if asleep = 0 then 0 else (asleep : ℚ))
      TotalTimeInBed := some (inBed : ℚ) }

/-! ## The Loader's window tag (`load_data`, data_processing.py:128-137) -/

/-- `time_period = "3_12" if "3.12.16-4.11.16" in folder_name else "4_12"`
(data_processing.py:131); Python's `in` on strings is substring
containment. -/
def time_period (folder_name : String) : String :=
  if "3.12.16-4.11.16".toList <:+: folder_name.toList then "3_12" else "4_12"

/-! ## Invariant predicates and concrete tables used by the theorems -/

/-- A nullable rational cell is null or non-negative. -/
def nonneg_cell (o : Option ℚ) : Prop :=
  ∀ v, o = some v → 0 ≤ v

/-- A nullable integer (flag) cell is null or non-negative. -/
def nonneg_flag (o : Option Int) : Prop :=
  ∀ v, o = some v → 0 ≤ v

/-- Every numeric cell of the row is null or non-negative. -/
def nonneg_row (r : Row) : Prop :=
  nonneg_cell r.TotalSteps ∧ nonneg_cell r.TotalDistance ∧
  nonneg_cell r.VeryActiveDistance ∧ nonneg_cell r.SedentaryActiveDistance ∧
  nonneg_cell r.VeryActiveMinutes ∧ nonneg_cell r.Calories ∧
  nonneg_cell r.TotalMinutesAsleep ∧ nonneg_cell r.TotalTimeInBed ∧
  nonneg_cell r.AvgWeightKg ∧ nonneg_cell r.AvgWeightPounds ∧
  nonneg_cell r.AvgBMI ∧ nonneg_cell r.AvgHeartRate ∧
  nonneg_cell r.SleepEfficiency ∧ nonneg_cell r.VeryActiveRatio ∧
  nonneg_flag r.HasSleepData ∧ nonneg_flag r.HasWeightData ∧
  nonneg_flag r.HasBMIData ∧ nonneg_flag r.HasHeartRateData

/-- A right-hand merge table has at most one row per `(Id, Date)` key. -/
def at_most_one_per_key {β : Type} (getKey : β → Int × String) (xs : List β) : Prop :=
  ∀ k, (xs.filter fun s => decide (getKey s = k)).length ≤ 1

/-- The spec's Tukey scenario: a TotalSteps population
`[1000, 2000, 3000, 4000, 100000]` (Calories constant so only the TotalSteps
filter can drop a row). -/
def steps_outlier_scenario : List Row :=
  [{ Id := 1, Date := "a", TotalSteps := some 1000, Calories := some 100 },
   { Id := 1, Date := "b", TotalSteps := some 2000, Calories := some 100 },
   { Id := 1, Date := "c", TotalSteps := some 3000, Calories := some 100 },
   { Id := 1, Date := "d", TotalSteps := some 4000, Calories := some 100 },
   { Id := 1, Date := "e", TotalSteps := some 100000, Calories := some 100 }]

/-- A row with a biologically implausible heart rate (300 bpm); its other
populated columns survive every Tukey filter of a one-row table. -/
def hr_outlier_row : Row :=
  { Id := 1, Date := "d", TotalSteps := some 100, Calories := some 100,
    AvgHeartRate := some 300 }

/-- A table on which the Cleaner is not idempotent: the TotalSteps population
`1, 2, 4, 8, 16, 32, 64, 128` loses 128 to the first Tukey pass, after which
the recomputed bounds of the surviving population also exclude 64. -/
def iqr_refilter_table : List Row :=
  [1, 2, 4, 8, 16, 32, 64, 128].map fun n =>
    { Id := 1, Date := "d", TotalSteps := some n, Calories := some 100 }

/-- The spec's essential-completeness scenario, kept row. -/
def essential_kept_row : Row :=
  { Id := 1, Date := "2016-04-12", TotalSteps := some 12000, Calories := some 400 }

/-- The spec's essential-completeness scenario, dropped row. -/
def essential_dropped_row : Row :=
  { Id := 2, Date := "2016-04-12", TotalSteps := none, Calories := some 500 }

/-- The spec's sleep-reduction scenario: 450 minute rows for one (user, day),
300 of them in the asleep stage. -/
def minute_sleep_scenario : List MinuteSleepRow :=
  List.replicate 300 { Id := 1, Date := "2016-04-01", value := 1 } ++
  List.replicate 150 { Id := 1, Date := "2016-04-01", value := 0 }

/-- An activity row whose key `(1, "d")` is matched twice by the sleep table
below. -/
def base_act_row : ActRow :=
  { Id := 1, Date := "d", TotalSteps := some 1 }

/-- First of two sleep rows sharing the key `(1, "d")`. -/
def dup_sleep_row1 : SleepRow :=
  { Id := 1, Date := "d", TotalMinutesAsleep := some 10, TotalTimeInBed := some 20 }

/-- Second of two sleep rows sharing the key `(1, "d")`. -/
def dup_sleep_row2 : SleepRow :=
  { Id := 1, Date := "d", TotalMinutesAsleep := some 11, TotalTimeInBed := some 21 }

/-- Two-row activity table with unique keys, for the merge-count witness. -/
def unique_act_table : List ActRow :=
  [{ Id := 1, Date := "d1", TotalSteps := some 1 },
   { Id := 2, Date := "d2", TotalSteps := some 2 }]

/-- One-row sleep table with a unique key, for the merge-count witness. -/
def unique_sleep_table : List SleepRow :=
  [{ Id := 1, Date := "d1", TotalMinutesAsleep := some 10, TotalTimeInBed := some 20 }]

/-- A plain well-formed row used to exercise `clean_data` in witnesses. -/
def simple_row : Row :=
  { Id := 1, Date := "2016-04-13", TotalSteps := some 10, Calories := some 50,
    AvgHeartRate := some 100 }

/-- A row with recorded but zero time in bed and zero total distance: both
ratio denominators are zero. -/
def zero_denominator_row : Row :=
  { Id := 1, Date := "2016-04-14", TotalTimeInBed := some 0,
    TotalMinutesAsleep := some 0, TotalDistance := some 0,
    VeryActiveDistance := some 0 }

/-! ## Library lemmas about the embedded pandas primitives -/

theorem mem_drop_duplicates {α : Type} [DecidableEq α] {a : α} :
    ∀ l : List α, a ∈ drop_duplicates l ↔ a ∈ l := by
  intro l
  induction l using drop_duplicates.induct with
  | case1 => simp [drop_duplicates]
  | case2 x xs ih =>
      rw [drop_duplicates]
      simp only [List.mem_cons, ih, List.mem_filter, decide_eq_true_eq]
      constructor
      · rintro (rfl | ⟨h, _⟩)
        · exact Or.inl rfl
        · exact Or.inr h
      · rintro (rfl | h)
        · exact Or.inl rfl
        · by_cases hax : a = x
          · exact Or.inl hax
          · exact Or.inr ⟨h, hax⟩

theorem nodup_drop_duplicates {α : Type} [DecidableEq α] :
    ∀ l : List α, (drop_duplicates l).Nodup := by
  intro l
  induction l using drop_duplicates.induct with
  | case1 => simp [drop_duplicates]
  | case2 x xs ih =>
      rw [drop_duplicates]
      refine List.nodup_cons.mpr ⟨fun hx => ?_, ih⟩
      have := (mem_drop_duplicates _).mp hx
      simp [List.mem_filter] at this

theorem drop_duplicates_eq_self_of_nodup {α : Type} [DecidableEq α] :
    ∀ l : List α, l.Nodup → drop_duplicates l = l := by
  intro l
  induction l using drop_duplicates.induct with
  | case1 => intro _; rw [drop_duplicates]
  | case2 x xs ih =>
      intro hnd
      rcases List.nodup_cons.mp hnd with ⟨hx, hxs⟩
      rw [drop_duplicates]
      have hfil : xs.filter (fun y => decide (y ≠ x)) = xs := by
        refine List.filter_eq_self.mpr fun y hy => ?_
        simp only [decide_eq_true_eq]
        exact fun h => hx (h ▸ hy)
      rw [hfil] at ih ⊢
      rw [ih hxs]

theorem option_rat_eq_of_parts {o : Option ℚ} {q : ℚ}
    (hs : o.isSome = true) (hn : (o.getD 0).num = q.num) (hd : (o.getD 0).den = q.den) :
    o = some q := by
  cases o with
  | none => simp at hs
  | some p =>
      have hp : p = q := Rat.ext (by simpa using hn) (by simpa using hd)
      rw [hp]

theorem list_opt_rat_eq_of_four {l : List (Option ℚ)} {o0 o1 o2 o3 : Option ℚ}
    (hlen : l.length = 4)
    (h0 : l.getD 0 none = o0) (h1 : l.getD 1 none = o1)
    (h2 : l.getD 2 none = o2) (h3 : l.getD 3 none = o3) :
    l = [o0, o1, o2, o3] := by
  cases l with
  | nil => simp at hlen
  | cons a t0 =>
  cases t0 with
  | nil => simp at hlen
  | cons b t1 =>
  cases t1 with
  | nil => simp at hlen
  | cons c t2 =>
  cases t2 with
  | nil => simp at hlen
  | cons d t3 =>
  cases t3 with
  | cons e t4 => simp at hlen
  | nil =>
      simp only [List.getD_cons_zero, List.getD_cons_succ] at h0 h1 h2 h3
      rw [h0, h1, h2, h3]

theorem filter_idempotent {α : Type} (p : α → Bool) :
    ∀ l : List α, (l.filter p).filter p = l.filter p := by
  intro l
  induction l with
  | nil => rfl
  | cons x xs ih => by_cases hp : p x <;> simp [List.filter_cons, hp, ih]

theorem round_half_even_cases (x : ℚ) :
    round_half_even x = ⌊x⌋ ∨ round_half_even x = ⌊x⌋ + 1 := by
  simp only [round_half_even]
  split_ifs <;> simp

theorem intCast_le_round_half_even {a : Int} {x : ℚ} (h : (a : ℚ) ≤ x) :
    a ≤ round_half_even x := by
  have hf : a ≤ ⌊x⌋ := Int.le_floor.mpr h
  rcases round_half_even_cases x with h1 | h1 <;> rw [h1] <;> omega

theorem round_half_even_le_intCast {a : Int} {x : ℚ} (h : x ≤ (a : ℚ)) :
    round_half_even x ≤ a := by
  simp only [round_half_even]
  split_ifs with h1 h2 h3
  · calc ⌊x⌋ ≤ ⌊(a : ℚ)⌋ := Int.floor_le_floor h
      _ = a := Int.floor_intCast a
  · have hpos : (⌊x⌋ : ℚ) < x := by push_neg at h1; nlinarith
    have hfa : ⌊x⌋ < a := by exact_mod_cast lt_of_lt_of_le hpos h
    omega
  · calc ⌊x⌋ ≤ ⌊(a : ℚ)⌋ := Int.floor_le_floor h
      _ = a := Int.floor_intCast a
  · have hpos : (⌊x⌋ : ℚ) < x := by push_neg at h1; nlinarith
    have hfa : ⌊x⌋ < a := by exact_mod_cast lt_of_lt_of_le hpos h
    omega

theorem round2_nonneg {x : ℚ} (h : 0 ≤ x) : 0 ≤ round2 x := by
  unfold round2
  have h0 : (0 : Int) ≤ round_half_even (100 * x) := by
    refine intCast_le_round_half_even ?_
    push_cast
    linarith
  have : (0 : ℚ) ≤ (round_half_even (100 * x) : ℚ) := by exact_mod_cast h0
  linarith [div_nonneg this (by norm_num : (0:ℚ) ≤ 100)]

theorem intCast_le_round2 {a : Int} {x : ℚ} (h : (a : ℚ) ≤ x) : (a : ℚ) ≤ round2 x := by
  unfold round2
  have h1 : (100 * a : Int) ≤ round_half_even (100 * x) := by
    refine intCast_le_round_half_even ?_
    push_cast
    linarith
  rw [le_div_iff₀ (by norm_num : (0:ℚ) < 100)]
  calc (a : ℚ) * 100 = ((100 * a : Int) : ℚ) := by push_cast; ring
    _ ≤ _ := by exact_mod_cast h1

theorem round2_le_intCast {a : Int} {x : ℚ} (h : x ≤ (a : ℚ)) : round2 x ≤ (a : ℚ) := by
  unfold round2
  have h1 : round_half_even (100 * x) ≤ (100 * a : Int) := by
    refine round_half_even_le_intCast ?_
    push_cast
    linarith
  rw [div_le_iff₀ (by norm_num : (0:ℚ) < 100)]
  calc ((round_half_even (100 * x) : Int) : ℚ) ≤ ((100 * a : Int) : ℚ) := by exact_mod_cast h1
    _ = (a : ℚ) * 100 := by push_cast; ring

theorem scrub_cell_eq_of_nonneg {v : ℚ} (h : 0 ≤ v) : scrub_cell (some v) = some v := by
  show (if v < 0 then none else some v) = some v
  exact if_neg (not_lt.mpr h)

theorem scrub_cell_nonneg (o : Option ℚ) (v : ℚ) (h : scrub_cell o = some v) : 0 ≤ v := by
  cases o with
  | none => exact Option.noConfusion h
  | some w =>
      by_cases hw : w < 0
      · have hnone : scrub_cell (some w) = none := by
          show (if w < 0 then none else some w) = none
          exact if_pos hw
        rw [hnone] at h
        cases h
      · have hsome : scrub_cell (some w) = some w := by
          show (if w < 0 then none else some w) = some w
          exact if_neg hw
        rw [hsome] at h
        cases h
        exact not_lt.mp hw

theorem scrub_flag_eq_of_nonneg {v : Int} (h : 0 ≤ v) : scrub_flag (some v) = some v := by
  show (if v < 0 then none else some v) = some v
  exact if_neg (not_lt.mpr h)

theorem scrub_flag_nonneg (o : Option Int) (v : Int) (h : scrub_flag o = some v) : 0 ≤ v := by
  cases o with
  | none => exact Option.noConfusion h
  | some w =>
      by_cases hw : w < 0
      · have hnone : scrub_flag (some w) = none := by
          show (if w < 0 then none else some w) = none
          exact if_pos hw
        rw [hnone] at h
        cases h
      · have hsome : scrub_flag (some w) = some w := by
          show (if w < 0 then none else some w) = some w
          exact if_neg hw
        rw [hsome] at h
        cases h
        exact not_lt.mp hw

/-! ## C3 — idempotence of the Cleaner -/

/-- C3 (counterexample): the Cleaner is not idempotent.  On
`iqr_refilter_table` (TotalSteps population 1, 2, 4, 8, 16, 32, 64, 128) the
first `clean_data` pass removes the row with 128 (Tukey upper bound 94.75);
re-running `clean_data` on that output recomputes the quantiles over the seven
survivors (upper bound 55.5) and also removes the row with 64, so the second
pass does not return its input unchanged. -/
theorem clean_data_not_idempotent :
    clean_data (clean_data iqr_refilter_table) ≠ clean_data iqr_refilter_table := by
  with_unfolding_all decide

/-- C3 (amended): re-running the Cleaner on its own output is NOT a no-op in
general — the Tukey outlier stage recomputes population quantiles over its own
output and may drop further rows (see `clean_data_not_idempotent`).  The
Cleaner's other row-dropping stages are individually idempotent: deduplication
applied to its own output removes nothing, and so do the essential-completeness
filter and the heart-rate range filter. -/
theorem cleaner_row_dropping_stages_idempotent_except_iqr (df : List Row) :
    handle_duplicates (handle_duplicates df) = handle_duplicates df ∧
    essential_filter (essential_filter df) = essential_filter df ∧
    hr_range_filter (hr_range_filter df) = hr_range_filter df := by
  refine ⟨?_, ?_, ?_⟩
  · exact drop_duplicates_eq_self_of_nodup _ (nodup_drop_duplicates df)
  · exact filter_idempotent _ df
  · exact filter_idempotent _ df

/-! ## C6 and C9 — the missing-value stage -/

/-- C6: the missing-value stage drops exactly the rows whose TotalSteps or
Calories is null (the retained rows are `essential_filter df`, the rows
passing the `dropna` test, with key and essential cells untouched by the
stage's later flagging and imputation), and on the spec's scenario the row
(TotalSteps=12000, Calories=400) is kept — it is the single surviving row,
with `Id = 1` — while the row (TotalSteps=null, Calories=500) is dropped. -/
theorem missing_value_stage_drops_exactly_null_essential_rows :
    (∀ df : List Row,
      (handle_missing_values df).map (fun r => (r.Id, r.Date, r.TotalSteps, r.Calories)) =
        (essential_filter df).map (fun r => (r.Id, r.Date, r.TotalSteps, r.Calories))) ∧
    (handle_missing_values [essential_kept_row, essential_dropped_row]).map
        (fun r => r.Id) = [1] := by
  constructor
  · intro df
    simp only [handle_missing_values, List.map_map]
    rfl
  · with_unfolding_all decide

/-- C9: the calorie imputation of `handle_missing_values` computes the
steps-to-calorie replacement series but never assigns it back (the source's
`df["Calories"].fillna(...)` result is discarded): the Calories column of the
stage's output equals the Calories column of the retained input rows. -/
theorem calorie_imputation_never_applied (df : List Row) :
    (handle_missing_values df).map (fun r => r.Calories) =
      (essential_filter df).map (fun r => r.Calories) := by
  simp only [handle_missing_values, List.map_map]
  rfl

/-! ## C4 — Tukey outlier rejection -/

theorem iqr_filter_eq_of_quantiles (f : Row → Option ℚ) (df : List Row) (q1 q3 : ℚ)
    (hq1 : quantile (df.filterMap f) (1/4) = some q1)
    (hq3 : quantile (df.filterMap f) (3/4) = some q3) :
    iqr_filter f df = df.filter fun r =>
      match f r with
      | none => true
      | some v =>
          decide (q1 - 3/2 * (q3 - q1) ≤ v) && decide (v ≤ q3 + 3/2 * (q3 - q1)) := by
  unfold iqr_filter
  rw [hq1, hq3]

/-- C4: for a column read by `f`, one pass of the outlier loop computes the
Tukey bounds `[Q1 − 1.5·IQR, Q3 + 1.5·IQR]` from the column's population
quantiles and keeps exactly the rows whose value is null (nulls pass through)
or lies within the bounds, dropping exactly the rows with a value strictly
outside; and on the spec's scenario population `[1000, 2000, 3000, 4000,
100000]` the quantiles are Q1 = 2000 and Q3 = 4000 (so the upper bound is
2000 + 1.5·2000 = 7000), the row with 100000 is removed by `handle_outliers`,
and the other four rows are retained. -/
theorem iqr_filter_keeps_exactly_in_bounds_rows :
    (∀ (df : List Row) (f : Row → Option ℚ) (q1 q3 : ℚ),
      quantile (df.filterMap f) (1/4) = some q1 →
      quantile (df.filterMap f) (3/4) = some q3 →
      ∀ r, r ∈ iqr_filter f df ↔
        r ∈ df ∧ (f r = none ∨ ∃ v, f r = some v ∧
          q1 - 3/2 * (q3 - q1) ≤ v ∧ v ≤ q3 + 3/2 * (q3 - q1))) ∧
    quantile (steps_outlier_scenario.filterMap fun r => r.TotalSteps) (1/4) = some 2000 ∧
    quantile (steps_outlier_scenario.filterMap fun r => r.TotalSteps) (3/4) = some 4000 ∧
    ((handle_outliers steps_outlier_scenario).map fun r => r.TotalSteps) =
      [some 1000, some 2000, some 3000, some 4000] := by
  refine ⟨?_, ?_, ?_, ?_⟩
  · intro df f q1 q3 hq1 hq3 r
    rw [iqr_filter_eq_of_quantiles f df q1 q3 hq1 hq3, List.mem_filter]
    constructor
    · rintro ⟨hr, hb⟩
      refine ⟨hr, ?_⟩
      cases hf : f r with
      | none => exact Or.inl rfl
      | some v =>
          rw [hf] at hb
          simp only [Bool.and_eq_true, decide_eq_true_eq] at hb
          exact Or.inr ⟨v, rfl, hb.1, hb.2⟩
    · rintro ⟨hr, hb⟩
      refine ⟨hr, ?_⟩
      rcases hb with hnone | ⟨v, hv, h1, h2⟩
      · rw [hnone]
      · rw [hv]
        simp only [Bool.and_eq_true, decide_eq_true_eq]
        exact ⟨h1, h2⟩
  · exact option_rat_eq_of_parts (by with_unfolding_all decide)
      (by with_unfolding_all decide) (by with_unfolding_all decide)
  · exact option_rat_eq_of_parts (by with_unfolding_all decide)
      (by with_unfolding_all decide) (by with_unfolding_all decide)
  · refine list_opt_rat_eq_of_four (by with_unfolding_all decide) ?_ ?_ ?_ ?_ <;>
      exact option_rat_eq_of_parts (by with_unfolding_all decide)
        (by with_unfolding_all decide) (by with_unfolding_all decide)

/-- Witness for `iqr_filter_keeps_exactly_in_bounds_rows`: its general part,
instantiated at the scenario table with the quantiles it also certifies,
places the 1000-step row in the filtered output. -/
theorem iqr_filter_keeps_exactly_in_bounds_rows_witness :
    ({ Id := 1, Date := "a", TotalSteps := some 1000, Calories := some 100 } : Row) ∈
      iqr_filter (fun r => r.TotalSteps) steps_outlier_scenario :=
  (iqr_filter_keeps_exactly_in_bounds_rows.1 steps_outlier_scenario
      (fun r => r.TotalSteps) 2000 4000
      (option_rat_eq_of_parts (by with_unfolding_all decide)
        (by with_unfolding_all decide) (by with_unfolding_all decide))
      (option_rat_eq_of_parts (by with_unfolding_all decide)
        (by with_unfolding_all decide) (by with_unfolding_all decide)) _).mpr
    ⟨by constructor, Or.inr ⟨1000, rfl, by norm_num, by norm_num⟩⟩

/-! ## C5 — the sleep Granularity Reducer -/

/-- C5: the sleep reducer emits one row per (UserId, Date): every output row's
TotalTimeInBed is the count of minute-rows with its key and its
TotalMinutesAsleep is the count of those whose stage code equals 1 (the asleep
value) — a key with no asleep row reads 0 via the null-fill, which is the same
count; every input minute-row's key appears in the output; and on the spec's
scenario of 450 minute rows with 300 asleep the reduced table is the single
row (1, 2016-04-01, TotalMinutesAsleep=300, TotalTimeInBed=450). -/
theorem minute_sleep_reduction_counts :
    (∀ (rows : List MinuteSleepRow) (r : SleepRow),
      r ∈ convert_minute_sleep_to_daily rows →
      r.TotalTimeInBed =
        some (((rows.filter fun m => decide (ms_key m = (r.Id, r.Date))).length : ℚ)) ∧
      r.TotalMinutesAsleep =
        some (((rows.filter fun m =>
          decide (ms_key m = (r.Id, r.Date) ∧ m.value = 1)).length : ℚ))) ∧
    (∀ (rows : List MinuteSleepRow) (m : MinuteSleepRow), m ∈ rows →
      ∃ r ∈ convert_minute_sleep_to_daily rows, r.Id = m.Id ∧ r.Date = m.Date) ∧
    convert_minute_sleep_to_daily minute_sleep_scenario =
      [{ Id := 1, Date := "2016-04-01", TotalMinutesAsleep := some 300,
         TotalTimeInBed := some 450 }] := by
  refine ⟨?_, ?_, ?_⟩
  · intro rows r hr
    simp only [convert_minute_sleep_to_daily] at hr
    rcases List.mem_map.mp hr with ⟨k, hk, rfl⟩
    constructor
    · simp only [Prod.mk.eta]
    · simp only [Prod.mk.eta]
      by_cases h0 :
          (rows.filter fun m => decide (ms_key m = k ∧ m.value = 1)).length = 0
      · rw [h0]
        norm_num
      · rw [if_neg h0]
  · intro rows m hm
    have hkey : ms_key m ∈ drop_duplicates (rows.map ms_key) :=
      (mem_drop_duplicates _).mpr (List.mem_map_of_mem ms_key hm)
    simp only [convert_minute_sleep_to_daily]
    exact ⟨_, List.mem_map_of_mem _ hkey, rfl, rfl⟩
  · with_unfolding_all decide

/-- Witness for `minute_sleep_reduction_counts`: on the 450-row scenario the
reduced row for key (1, 2016-04-01) carries exactly the in-bed count. -/
theorem minute_sleep_reduction_counts_witness :
    ({ Id := 1, Date := "2016-04-01", TotalMinutesAsleep := some 300,
       TotalTimeInBed := some 450 } : SleepRow).TotalTimeInBed =
      some (((minute_sleep_scenario.filter fun m =>
        decide (ms_key m = (1, "2016-04-01"))).length : ℚ)) :=
  (minute_sleep_reduction_counts.1 minute_sleep_scenario _
    (by with_unfolding_all decide)).1

/-! ## C1 — heart-rate plausibility handling -/

theorem handle_outliers_hr_characterization (df : List Row) (r : Row)
    (hr : r ∈ handle_outliers df) :
    (r.AvgHeartRate = none ∧ r.HasHeartRateData = some 0) ∨
    ∃ v, r.AvgHeartRate = some v ∧ 30 ≤ v ∧ v ≤ 250 ∧ r.HasHeartRateData = some 1 := by
  simp only [handle_outliers] at hr
  rcases List.mem_map.mp hr with ⟨s, hs, rfl⟩
  rcases List.mem_filter.mp hs with ⟨_, hpred⟩
  cases hhr : s.AvgHeartRate with
  | none =>
      left
      constructor
      · show s.AvgHeartRate = none
        exact hhr
      · show some (if s.AvgHeartRate.isSome then 1 else 0) = some 0
        rw [hhr]
        rfl
  | some v =>
      right
      rw [hhr] at hpred
      simp only [Bool.and_eq_true, decide_eq_true_eq] at hpred
      refine ⟨v, ?_, hpred.1, hpred.2, ?_⟩
      · show s.AvgHeartRate = some v
        exact hhr
      · show some (if s.AvgHeartRate.isSome then 1 else 0) = some 1
        rw [hhr]
        rfl

/-- C1 (counterexample): an AvgHeartRate outside [30, 250] is NOT set to null
with the row retained — the row is dropped.  `hr_outlier_row` has
AvgHeartRate = 300 (and values that pass every Tukey filter of its
singleton table), yet the outlier stage returns the empty table: no row, and
in particular no row with a nulled AvgHeartRate, survives. -/
theorem hr_out_of_range_row_dropped_not_nulled :
    handle_outliers [hr_outlier_row] = [] ∧
    hr_outlier_row.AvgHeartRate = some 300 ∧
    ¬ ∃ r ∈ handle_outliers [hr_outlier_row], r.AvgHeartRate = none := by
  have hempty : handle_outliers [hr_outlier_row] = [] := by
    with_unfolding_all decide
  refine ⟨hempty, rfl, ?_⟩
  rw [hempty]
  rintro ⟨r, hmem, -⟩
  cases hmem

/-- C1 (amended): the outlier stage removes the rows whose AvgHeartRate lies
outside [30, 250] (rather than nulling the value in place), so in the cleaned
output every row's AvgHeartRate is either null — with HasHeartRateData = 0 —
or a value within [30, 250] — with HasHeartRateData = 1. -/
theorem cleaned_avg_heart_rate_null_or_in_range (df : List Row) (r : Row)
    (hr : r ∈ clean_data df) :
    (r.AvgHeartRate = none ∧ r.HasHeartRateData = some 0) ∨
    ∃ v, r.AvgHeartRate = some v ∧ 30 ≤ v ∧ v ≤ 250 ∧ r.HasHeartRateData = some 1 := by
  simp only [clean_data, round_decimal_values, handle_negative_values,
    drop_unnecessary_columns, add_derived_metrics, List.map_map] at hr
  rcases List.mem_map.mp hr with ⟨r0, hr0, rfl⟩
  rcases handle_outliers_hr_characterization _ _ hr0 with ⟨hnone, hflag⟩ | ⟨v, hv, h30, h250, hflag⟩
  · left
    constructor
    · show ((scrub_cell (derive_row r0).AvgHeartRate).map round2 : Option ℚ) = none
      have : (derive_row r0).AvgHeartRate = r0.AvgHeartRate := rfl
      rw [this, hnone]
      rfl
    · show scrub_flag (derive_row r0).HasHeartRateData = some 0
      have : (derive_row r0).HasHeartRateData = r0.HasHeartRateData := rfl
      rw [this, hflag]
      exact scrub_flag_eq_of_nonneg le_rfl
  · right
    refine ⟨round2 v, ?_, ?_, ?_, ?_⟩
    · show ((scrub_cell (derive_row r0).AvgHeartRate).map round2 : Option ℚ) = some (round2 v)
      have : (derive_row r0).AvgHeartRate = r0.AvgHeartRate := rfl
      rw [this, hv, scrub_cell_eq_of_nonneg (le_trans (by norm_num) h30)]
      rfl
    · have := intCast_le_round2 (a := 30) (x := v) (by exact_mod_cast h30)
      exact_mod_cast this
    · have := round2_le_intCast (a := 250) (x := v) (by exact_mod_cast h250)
      exact_mod_cast this
    · show scrub_flag (derive_row r0).HasHeartRateData = some 1
      have : (derive_row r0).HasHeartRateData = r0.HasHeartRateData := rfl
      rw [this, hflag]
      exact scrub_flag_eq_of_nonneg (by norm_num)

/-- Witness for `cleaned_avg_heart_rate_null_or_in_range`: the cleaned output
of the one-row table `[simple_row]` (AvgHeartRate = 100) satisfies the
disjunction. -/
theorem cleaned_avg_heart_rate_null_or_in_range_witness :
    ({ Id := 1, Date := "2016-04-13", TotalSteps := some 10, Calories := some 50,
       AvgHeartRate := some 100, HasSleepData := some 0, HasWeightData := some 0,
       HasBMIData := some 0, HasHeartRateData := some 1 } : Row).AvgHeartRate = none ∧
      ({ Id := 1, Date := "2016-04-13", TotalSteps := some 10, Calories := some 50,
         AvgHeartRate := some 100, HasSleepData := some 0, HasWeightData := some 0,
         HasBMIData := some 0, HasHeartRateData := some 1 } : Row).HasHeartRateData = some 0 ∨
    ∃ v, ({ Id := 1, Date := "2016-04-13", TotalSteps := some 10, Calories := some 50,
            AvgHeartRate := some 100, HasSleepData := some 0, HasWeightData := some 0,
            HasBMIData := some 0, HasHeartRateData := some 1 } : Row).AvgHeartRate = some v ∧
      30 ≤ v ∧ v ≤ 250 ∧
      ({ Id := 1, Date := "2016-04-13", TotalSteps := some 10, Calories := some 50,
         AvgHeartRate := some 100, HasSleepData := some 0, HasWeightData := some 0,
         HasBMIData := some 0, HasHeartRateData := some 1 } : Row).HasHeartRateData = some 1 :=
  cleaned_avg_heart_rate_null_or_in_range [simple_row] _ (by with_unfolding_all decide)

/-! ## C2 — merge completeness -/

theorem key_matches_length_one {β : Type} (g : β → Int × String) (xs : List β)
    (k : Int × String) (h : (xs.filter fun s => decide (g s = k)).length ≤ 1) :
    (key_matches g xs k).length = 1 := by
  simp only [key_matches]
  by_cases h0 : (xs.filter fun s => decide (g s = k)).length = 0
  · rw [if_pos h0]
    rfl
  · rw [if_neg h0, List.length_map]
    omega

/-- C2 (counterexample): a pandas left merge does not preserve the row count
of the left table when the right table carries a duplicated join key.  The
single-row activity table joined with two sleep rows sharing its (Id, Date)
key yields a two-row unified table. -/
theorem left_join_duplicated_key_inflates_rows :
    (merge_all_data [base_act_row] [dup_sleep_row1, dup_sleep_row2] [] []).length = 2 ∧
    ([base_act_row] : List ActRow).length = 1 := by
  constructor
  · with_unfolding_all decide
  · rfl

/-- C2 (amended): the left-joins of the Merger neither drop nor add rows
provided each right-hand table carries at most one row per (Id, Date) key —
the property the Granularity Reducer's `groupby` establishes for the reduced
sleep, weight, and heart-rate tables.  Under that hypothesis the unified
table has exactly one row per concatenated-activity row. -/
theorem merge_preserves_activity_row_count (acts : List ActRow)
    (sleeps : List SleepRow) (weights : List WeightRow) (hrs : List HrRow)
    (hs : at_most_one_per_key (fun s => (s.Id, s.Date)) sleeps)
    (hw : at_most_one_per_key (fun w => (w.Id, w.Date)) weights)
    (hh : at_most_one_per_key (fun h => (h.Id, h.Date)) hrs) :
    (merge_all_data acts sleeps weights hrs).length = acts.length := by
  induction acts with
  | nil => rfl
  | cons a rest ih =>
      have h1 := key_matches_length_one _ sleeps (a.Id, a.Date) (hs _)
      have h2 := key_matches_length_one _ weights (a.Id, a.Date) (hw _)
      have h3 := key_matches_length_one _ hrs (a.Id, a.Date) (hh _)
      rcases List.length_eq_one.mp h1 with ⟨so, hso⟩
      rcases List.length_eq_one.mp h2 with ⟨wo, hwo⟩
      rcases List.length_eq_one.mp h3 with ⟨ho, hho⟩
      simp only [merge_all_data, List.flatMap_cons, List.length_append] at ih ⊢
      rw [hso, hwo, hho]
      simp [ih]
      omega

/-- Witness for `merge_preserves_activity_row_count`: a two-row activity table
left-joined with a one-row sleep table (unique keys) and empty weight and
heart-rate tables keeps exactly its two rows. -/
theorem merge_preserves_activity_row_count_witness :
    (merge_all_data unique_act_table unique_sleep_table [] []).length =
      unique_act_table.length :=
  merge_preserves_activity_row_count unique_act_table unique_sleep_table [] []
    (fun k => le_trans (List.length_filter_le _ _) (by rfl))
    (fun k => le_trans (List.length_filter_le _ _) (by norm_num))
    (fun k => le_trans (List.length_filter_le _ _) (by norm_num))

/-! ## C8 — non-negativity of the cleaned table -/

theorem nonneg_cell_round_scrub (o : Option ℚ) : nonneg_cell ((scrub_cell o).map round2) := by
  intro v hv
  rcases Option.map_eq_some'.mp hv with ⟨w, hw, rfl⟩
  exact round2_nonneg (scrub_cell_nonneg o w hw)

theorem nonneg_cell_none : nonneg_cell none :=
  fun _ hv => Option.noConfusion hv

theorem nonneg_flag_scrub (o : Option Int) : nonneg_flag (scrub_flag o) :=
  fun v hv => scrub_flag_nonneg o v hv

/-- C8: in the cleaned output every numeric cell is null or non-negative: the
negative-value scrub nulls every cell below zero, and the rounding stage that
follows it preserves non-negativity (rounding a non-negative rational at the
second decimal cannot produce a negative value). -/
theorem cleaned_table_nonnegative (df : List Row) (r : Row)
    (hr : r ∈ clean_data df) : nonneg_row r := by
  simp only [clean_data, round_decimal_values, handle_negative_values,
    drop_unnecessary_columns, add_derived_metrics, List.map_map] at hr
  rcases List.mem_map.mp hr with ⟨r0, hr0, rfl⟩
  simp only [nonneg_row]
  exact ⟨nonneg_cell_round_scrub _, nonneg_cell_round_scrub _, nonneg_cell_round_scrub _,
    nonneg_cell_none, nonneg_cell_round_scrub _, nonneg_cell_round_scrub _,
    nonneg_cell_round_scrub _, nonneg_cell_round_scrub _, nonneg_cell_round_scrub _,
    nonneg_cell_none, nonneg_cell_round_scrub _, nonneg_cell_round_scrub _,
    nonneg_cell_round_scrub _, nonneg_cell_round_scrub _, nonneg_flag_scrub _,
    nonneg_flag_scrub _, nonneg_flag_scrub _, nonneg_flag_scrub _⟩

/-- Witness for `cleaned_table_nonnegative`: the cleaned output row of the
one-row table `[simple_row]` has only null-or-non-negative cells. -/
theorem cleaned_table_nonnegative_witness :
    nonneg_row
      ({ Id := 1, Date := "2016-04-13", TotalSteps := some 10,
         Calories := some 50, AvgHeartRate := some 100, HasSleepData := some 0,
         HasWeightData := some 0, HasBMIData := some 0,
         HasHeartRateData := some 1 } : Row) :=
  cleaned_table_nonnegative [simple_row] _ (by with_unfolding_all decide)

/-! ## C7 — guarded derived ratios -/

/-- C7: for every row, the derived-metrics stage sets SleepEfficiency to
TotalMinutesAsleep / TotalTimeInBed when TotalTimeInBed > 0 and to null
otherwise (a null numerator propagates as null), sets VeryActiveRatio to
VeryActiveDistance / TotalDistance when TotalDistance > 0 and to null
otherwise, and a zero or null denominator always yields null — the stage is a
total function, so no input raises.  The last conjunct places the per-row body
inside `add_derived_metrics`. -/
theorem derived_ratios_guarded (r : Row) :
    (∀ b, r.TotalTimeInBed = some b → 0 < b →
      (derive_row r).SleepEfficiency = r.TotalMinutesAsleep.map fun a => a / b) ∧
    (∀ b, r.TotalTimeInBed = some b → ¬ 0 < b →
      (derive_row r).SleepEfficiency = none) ∧
    (r.TotalTimeInBed = none → (derive_row r).SleepEfficiency = none) ∧
    (∀ d, r.TotalDistance = some d → 0 < d →
      (derive_row r).VeryActiveRatio = r.VeryActiveDistance.map fun a => a / d) ∧
    (∀ d, r.TotalDistance = some d → ¬ 0 < d →
      (derive_row r).VeryActiveRatio = none) ∧
    (r.TotalDistance = none → (derive_row r).VeryActiveRatio = none) ∧
    (∀ df, r ∈ df → derive_row r ∈ add_derived_metrics df) := by
  refine ⟨?_, ?_, ?_, ?_, ?_, ?_, ?_⟩
  · intro b hb hpos; simp [derive_row, hb, hpos]
  · intro b hb hpos; simp [derive_row, hb, hpos]
  · intro hb; simp [derive_row, hb]
  · intro d hd hpos; simp [derive_row, hd, hpos]
  · intro d hd hpos; simp [derive_row, hd, hpos]
  · intro hd; simp [derive_row, hd]
  · intro df hdf; exact List.mem_map_of_mem derive_row hdf

/-- Witness for `derived_ratios_guarded`: on `zero_denominator_row` (recorded
but zero TotalTimeInBed and TotalDistance) both ratios come out null. -/
theorem derived_ratios_guarded_witness :
    (derive_row zero_denominator_row).SleepEfficiency = none ∧
    (derive_row zero_denominator_row).VeryActiveRatio = none :=
  ⟨(derived_ratios_guarded zero_denominator_row).2.1 0 rfl (lt_irrefl 0),
   (derived_ratios_guarded zero_denominator_row).2.2.2.2.1 0 rfl (lt_irrefl 0)⟩

/-! ## C10 — the Loader's window tag -/

/-- C10: during loading, a file whose parent folder name does not contain the
substring "3.12.16-4.11.16" is tagged with window identifier "4_12" whatever
the folder is named, and exactly the folder names containing that substring
are tagged "3_12". -/
theorem time_period_window_tag (s : String) :
    (¬ ("3.12.16-4.11.16".toList <:+: s.toList) → time_period s = "4_12") ∧
    (("3.12.16-4.11.16".toList <:+: s.toList) → time_period s = "3_12") := by
  constructor <;> intro h
  · rw [time_period, if_neg h]
  · rw [time_period, if_pos h]

/-- Witness for `time_period_window_tag` at the dataset's two real folder
names. -/
theorem time_period_window_tag_witness :
    time_period "Fitabase Data 4.12.16-5.12.16" = "4_12" ∧
    time_period "Fitabase Data 3.12.16-4.11.16" = "3_12" :=
  ⟨(time_period_window_tag "Fitabase Data 4.12.16-5.12.16").1 (by decide),
   (time_period_window_tag "Fitabase Data 3.12.16-4.11.16").2 (by decide)⟩
